import Mathlib

/-!
Shallow embedding of the RBAC core of the hono-api-boilerplate repository:
the policy tables and permission resolvers (`src/lib/permissions.ts`), the
guard middleware chain and imperative helpers (`src/lib/middleware/rbac.ts`),
the auth utility helpers (`src/lib/auth.ts`, second module: `isAdmin`,
`canPerformAction`, `getOrganizationId`), and the admin user-management
route handlers (`src/api/me.ts`).

JavaScript `string | null | undefined` values are modelled as
`Option String`, with the empty string still present inside `some` because
JS treats `""` as falsy: the helpers `truthy` and `jsOr` reproduce the
`x || y` idiom.  Middleware is modelled as a function from the request
context (plus the external collaborators it consults) to a `GuardResult`:
either a rejection carrying the HTTP error and the context as it stands, or
permission to proceed carrying the possibly-updated context.  The `next()`
continuation is not part of the model: each guard is embedded up to its own
accept/reject decision and its context writes.  Collaborators that perform
I/O (the Prisma membership lookup, the better-auth permission API) are
parameters of type `... → Except String _` so that an unexpected collaborator
error is an explicit `Except.error`.
-/

/-- An `HTTPException(status, message)` from hono, as thrown by the guards. -/
structure HTTPError where
  status : Nat
  message : String
deriving DecidableEq, Repr

/-- The principal attached to the request by the auth layer
(`c.get("user")`).  `role` is `string | null | undefined` in the source,
hence `Option String` here; the empty string stays inside `some`. -/
structure User where
  id : String
  role : Option String
  banned : Bool
deriving DecidableEq, Repr

/-- The session attached to the request (`c.get("session")`). -/
structure Session where
  id : String
deriving DecidableEq, Repr

/-- A row of the `member` table: Prisma's
`member.findUnique({organizationId_userId})` returns at most one such row. -/
structure MemberRow where
  organizationId : String
  userId : String
  role : Option String
deriving DecidableEq, Repr

/-- The per-request hono context as the RBAC middleware sees it:
`user`/`session` variables, the cached `organizationId`/`organizationRole`
variables, and the request's route parameters and query parameters
(association lists keyed by parameter name). -/
structure ReqCtx where
  user : Option User
  session : Option Session
  ctxOrganizationId : Option String
  ctxOrganizationRole : Option String
  params : List (String × String)
  query : List (String × String)
deriving DecidableEq, Repr

/-- JS object property access on a string-keyed object literal (the object
is an association list with pairwise-distinct keys; a missing property is
`undefined`, i.e. `none`). -/
def objGet {α : Type} : List (String × α) → String → Option α
  | [], _ => none
  | (k, v) :: rest, key => if key = k then some v else objGet rest key

/-- JS truthiness on a `string | null | undefined` value: `null`,
`undefined` and `""` are falsy.  Normalises a falsy value to `none`. -/
def truthy : Option String → Option String
  | none => none
  | some s => if s = "" then none else some s

/-- The JS `x || d` idiom on a string-or-nullish value. -/
def jsOr (x : Option String) (d : String) : String :=
  match truthy x with
  | some s => s
  | none => d

/-- `c.req.param(name)`: route-parameter lookup. -/
def ReqCtx.param (c : ReqCtx) (name : String) : Option String :=
  objGet c.params name

/-- `c.req.query(name)`: query-parameter lookup. -/
def ReqCtx.queryParam (c : ReqCtx) (name : String) : Option String :=
  objGet c.query name

/-! ## Policy tables (`src/lib/permissions.ts`)

The TS tables are plain object literals; an object keyed by strings is
modelled as an association list, and property access as `List.lookup`. -/

/-- `rolePermissions` from `permissions.ts` lines 13–30. -/
def rolePermissions : List (String × List (String × List String)) :=
  [("admin",
     [("user", ["create", "read", "update", "delete", "ban", "impersonate"]),
      ("project", ["create", "read", "update", "delete", "manage"]),
      ("admin", ["read", "manage"]),
      ("organization", ["create", "read", "update", "delete", "manage", "invite"]),
      ("team", ["create", "read", "update", "delete", "manage"]),
      ("invitation", ["create", "read", "update", "delete", "cancel"]),
      ("member", ["create", "read", "update", "delete"])]),
   ("user",
     [("project", ["create", "read", "update"]),
      ("organization", ["read"]),
      ("team", ["read"]),
      ("invitation", ["read"]),
      ("member", ["read"])])]

/-- `organizationRolePermissions` from `permissions.ts` lines 33–58. -/
def organizationRolePermissions : List (String × List (String × List String)) :=
  [("owner",
     [("project", ["create", "read", "update", "delete", "manage"]),
      ("organization", ["read", "update", "manage", "invite"]),
      ("team", ["create", "read", "update", "delete", "manage"]),
      ("invitation", ["create", "read", "update", "delete", "cancel"]),
      ("member", ["create", "read", "update", "delete"]),
      ("user", ["read"])]),
   ("admin",
     [("project", ["create", "read", "update", "delete"]),
      ("organization", ["read", "update", "invite"]),
      ("team", ["create", "read", "update", "delete"]),
      ("invitation", ["create", "read", "update", "delete", "cancel"]),
      ("member", ["create", "read", "update", "delete"]),
      ("user", ["read"])]),
   ("member",
     [("project", ["create", "read", "update"]),
      ("organization", ["read"]),
      ("team", ["read"]),
      ("invitation", ["read"]),
      ("member", ["read"]),
      ("user", ["read"])])]

/-- `type AppRole = keyof typeof rolePermissions`. -/
inductive AppRole where
  | admin
  | user
deriving DecidableEq, Repr

/-- The string key of an `AppRole`. -/
def AppRole.key : AppRole → String
  | .admin => "admin"
  | .user => "user"

/-- `type OrgRole = keyof typeof organizationRolePermissions`. -/
inductive OrgRole where
  | owner
  | admin
  | member
deriving DecidableEq, Repr

/-- The string key of an `OrgRole`. -/
def OrgRole.key : OrgRole → String
  | .owner => "owner"
  | .admin => "admin"
  | .member => "member"

/-- The body shared by `hasPermission`/`hasOrganizationPermission` at the
JS runtime level, where the role is an arbitrary string: `table[role]` on
an unknown key is `undefined`, so the subsequent `rolePerms[resource]`
property access throws a `TypeError`; that throw is `Except.error`.  For a
known role key the function is total:
`resourcePerms ? resourcePerms.includes(action) : false`. -/
def hasPermissionIn (table : List (String × List (String × List String)))
    (role resource action : String) : Except Unit Bool :=
  match objGet table role with
  | none => .error ()
  | some rolePerms =>
    match objGet rolePerms resource with
    | some resourcePerms => .ok (resourcePerms.contains action)
    | none => .ok false

/-- `hasPermission` from `permissions.ts` lines 61–69, at its TS type
(the role is restricted to `AppRole`, where the lookup cannot miss). -/
def hasPermission (role : AppRole) (resource action : String) : Bool :=
  match hasPermissionIn rolePermissions role.key resource action with
  | .ok b => b
  | .error _ => false

/-- `hasOrganizationPermission` from `permissions.ts` lines 71–79, at its
TS type. -/
def hasOrganizationPermission (role : OrgRole) (resource action : String) : Bool :=
  match hasPermissionIn organizationRolePermissions role.key resource action with
  | .ok b => b
  | .error _ => false

/-! ## Collaborator models -/

/-- The Membership Store as the guards use it:
`prisma.member.findUnique({ where: { organizationId_userId } })`.
An `Except.error` models the Prisma client raising. -/
def MemberStore := String → String → Except String (Option MemberRow)

/-- A deterministic store over a list of rows (Prisma's unique constraint
means `findUnique` returns the first — only — matching row). -/
def mkStore (db : List MemberRow) : MemberStore :=
  fun orgId userId =>
    .ok (db.find? (fun m => m.organizationId == orgId && m.userId == userId))

/-- A store whose client raises `e` on every call. -/
def failingStore (e : String) : MemberStore := fun _ _ => .error e

/-- The better-auth `auth.api.hasPermission` collaborator as the imperative
helpers call it: given (resource, action) — plus the session headers, which
the model leaves implicit in the function value — it returns
`{ success: bool }` or raises. -/
def PermApi := String → String → Except String Bool

/-- The organization-scoped variant: (organizationId, resource, action). -/
def OrgPermApi := String → String → String → Except String Bool

/-! ## Guard results -/

/-- What a guard does with a request: terminate it with an `HTTPException`
(carrying the context as the guard leaves it) or let it proceed with the
possibly-updated context. -/
inductive GuardResult where
  | reject (err : HTTPError) (after : ReqCtx)
  | proceed (after : ReqCtx)
deriving DecidableEq, Repr

/-- The verdict of a guard, forgetting the context it carries. -/
def GuardResult.verdict : GuardResult → Except HTTPError Unit
  | .reject e _ => .error e
  | .proceed _ => .ok ()

/-- What a `try` block inside a guard can throw: an `HTTPException` the
guard itself constructed, or a collaborator/JS error. -/
inductive Thrown where
  | http (e : HTTPError)
  | js (msg : String)
deriving DecidableEq, Repr

/-! ## Guards (`src/lib/middleware/rbac.ts`) -/

/-- The `try` block of `requirePermission` (rbac.ts lines 29–46): resolve
the app role with `(user.role as AppRole) || "user"`, consult the policy
table, and throw 403 on denial.  (`await next()` is outside the model.) -/
def requirePermissionTry (resource action : String) (role : Option String) :
    Except Thrown Unit := do
  let userRole := jsOr role "user"
  let granted ← match hasPermissionIn rolePermissions userRole resource action with
    | .ok b => pure b
    | .error _ => throw (Thrown.js "TypeError")
  if !granted then
    throw (Thrown.http ⟨403, "Insufficient permissions: " ++ resource ++ "." ++ action⟩)

/-- `requirePermission` from rbac.ts lines 17–57.  Missing user or session
throws 401 before the `try`; everything thrown inside the `try` — the store
error, the `TypeError`, and the guard's own 403 — is caught by the
`catch (error)` block and replaced by `HTTPException(500, "Permission check
failed")`. -/
def requirePermission (resource action : String) (c : ReqCtx) : GuardResult :=
  match c.user, c.session with
  | none, _ => .reject ⟨401, "Authentication required"⟩ c
  | _, none => .reject ⟨401, "Authentication required"⟩ c
  | some user, some _ =>
    match requirePermissionTry resource action user.role with
    | .ok _ => .proceed c
    | .error _ => .reject ⟨500, "Permission check failed"⟩ c

/-- `requireRole` from rbac.ts lines 62–83: 401 without a user, then a
plain `roles.includes(user.role || "user")` check with no `try`/`catch`
and no context writes. -/
def requireRole (roles : List String) (c : ReqCtx) : GuardResult :=
  match c.user with
  | none => .reject ⟨401, "Authentication required"⟩ c
  | some user =>
    let userRole := jsOr user.role "user"
    if !roles.contains userRole then
      .reject ⟨403, "Required role: " ++ String.intercalate " or " roles ++
                    ". Current role: " ++ userRole⟩ c
    else
      .proceed c

/-- Organization-id resolution as the three organization guards perform it
inline (rbac.ts lines 93–106, 153–166, 228–240): the cached context value,
then the `organizationId` route parameter; a falsy result of both means
`HTTPException(400)`.  No query-parameter fallback. -/
def guardOrgId (c : ReqCtx) : Option String :=
  match truthy c.ctxOrganizationId with
  | some v => some v
  | none => truthy (c.param "organizationId")

/-- The `try` block of `requireOrganizationMember` (rbac.ts lines 108–130):
membership lookup, 403 when absent.  On success it yields
`membership.role || "member"`, the value the block writes to
`organizationRole` (the write itself is applied by the guard below). -/
def requireOrganizationMemberTry (store : MemberStore)
    (userId organizationId : String) : Except Thrown String := do
  let membership ← match store organizationId userId with
    | .ok m => pure m
    | .error e => throw (Thrown.js e)
  match membership with
  | none => throw (Thrown.http ⟨403, "Not a member of this organization"⟩)
  | some m => pure (jsOr m.role "member")

/-- `requireOrganizationMember` from rbac.ts lines 88–142.  The
`catch (error)` block replaces anything thrown in the `try` — including the
guard's own 403 "Not a member of this organization" — with
`HTTPException(403, "Organization access denied")`. -/
def requireOrganizationMember (store : MemberStore) (c : ReqCtx) : GuardResult :=
  match c.user with
  | none => .reject ⟨401, "Authentication required"⟩ c
  | some user =>
    match guardOrgId c with
    | none => .reject ⟨400, "Organization ID required"⟩ c
    | some organizationId =>
      match requireOrganizationMemberTry store user.id organizationId with
      | .ok orgRole =>
        .proceed { c with ctxOrganizationId := some organizationId,
                          ctxOrganizationRole := some orgRole }
      | .error _ => .reject ⟨403, "Organization access denied"⟩ c

/-- The `try` block of `requireOrganizationPermission` (rbac.ts lines
168–204): membership lookup, 403 when absent, org-role resolution with
`(membership.role as OrgRole) || "member"`, then the policy-table check.
(The block's only context write, of `organizationId`, is applied by the
guard below.) -/
def requireOrganizationPermissionTry (resource action : String)
    (store : MemberStore) (userId organizationId : String) :
    Except Thrown Unit := do
  let membership ← match store organizationId userId with
    | .ok m => pure m
    | .error e => throw (Thrown.js e)
  match membership with
  | none => throw (Thrown.http ⟨403, "Not a member of this organization"⟩)
  | some m =>
    let userOrgRole := jsOr m.role "member"
    let granted ← match hasPermissionIn organizationRolePermissions
        userOrgRole resource action with
      | .ok b => pure b
      | .error _ => throw (Thrown.js "TypeError")
    if !granted then
      throw (Thrown.http ⟨403,
        "Insufficient organization permissions: " ++ resource ++ "." ++ action⟩)

/-- `requireOrganizationPermission` from rbac.ts lines 147–218.  No
admin-bypass branch exists: the membership lookup runs for every principal,
and the `catch` replaces anything thrown in the `try` with
`HTTPException(403, "Organization permission denied")`. -/
def requireOrganizationPermission (resource action : String)
    (store : MemberStore) (c : ReqCtx) : GuardResult :=
  match c.user with
  | none => .reject ⟨401, "Authentication required"⟩ c
  | some user =>
    match guardOrgId c with
    | none => .reject ⟨400, "Organization ID required"⟩ c
    | some organizationId =>
      match requireOrganizationPermissionTry resource action store user.id
          organizationId with
      | .ok _ => .proceed { c with ctxOrganizationId := some organizationId }
      | .error _ => .reject ⟨403, "Organization permission denied"⟩ c

/-- The `try` block of `requireOrganizationRole` (rbac.ts lines 242–272):
membership lookup, 403 when absent, `membership.role || "member"` against
the required list.  On success it yields the resolved org role, the value
the block writes to `organizationRole` (the writes are applied by the
guard below). -/
def requireOrganizationRoleTry (roles : List String) (store : MemberStore)
    (userId organizationId : String) : Except Thrown String := do
  let membership ← match store organizationId userId with
    | .ok m => pure m
    | .error e => throw (Thrown.js e)
  match membership with
  | none => throw (Thrown.http ⟨403, "Not a member of this organization"⟩)
  | some m =>
    let userRole := jsOr m.role "member"
    if !roles.contains userRole then
      throw (Thrown.http ⟨403,
        "Required organization role: " ++ String.intercalate " or " roles ++
        ". Current role: " ++ userRole⟩)
    pure userRole

/-- `requireOrganizationRole` from rbac.ts lines 223–285, with its `catch`
replacing anything thrown in the `try` with
`HTTPException(403, "Organization role check failed")`. -/
def requireOrganizationRole (roles : List String) (store : MemberStore)
    (c : ReqCtx) : GuardResult :=
  match c.user with
  | none => .reject ⟨401, "Authentication required"⟩ c
  | some user =>
    match guardOrgId c with
    | none => .reject ⟨400, "Organization ID required"⟩ c
    | some organizationId =>
      match requireOrganizationRoleTry roles store user.id organizationId with
      | .ok userRole =>
        .proceed { c with ctxOrganizationId := some organizationId,
                          ctxOrganizationRole := some userRole }
      | .error _ => .reject ⟨403, "Organization role check failed"⟩ c

/-! ## Imperative helpers (`src/lib/middleware/rbac.ts` lines 290–356) -/

/-- `checkPermission` from rbac.ts lines 290–318: `false` without a user;
otherwise `result.success || false` from the better-auth permission API, any
API error swallowed to `false` by the `catch`. -/
def checkPermission (api : PermApi) (c : ReqCtx)
    (resource action : String) : Bool :=
  match c.user with
  | none => false
  | some _ =>
    match api resource action with
    | .ok success => success || false
    | .error _ => false

/-- The org-id resolution chain of `checkOrganizationPermission`
(rbac.ts lines 330–331):
`organizationId || c.get("organizationId") || c.req.param("organizationId")`
— explicit argument, then cached context, then route parameter; no query
fallback. -/
def checkOrgId (c : ReqCtx) (organizationId : Option String) : Option String :=
  match truthy organizationId with
  | some v => some v
  | none =>
    match truthy c.ctxOrganizationId with
    | some v => some v
    | none => truthy (c.param "organizationId")

/-- `checkOrganizationPermission` from rbac.ts lines 323–356: the org id is
resolved by `checkOrgId`; `false` without a user or org id; otherwise the
better-auth API result with errors swallowed to `false`. -/
def checkOrganizationPermission (api : OrgPermApi) (c : ReqCtx)
    (resource action : String) (organizationId : Option String) : Bool :=
  match c.user, checkOrgId c organizationId with
  | none, _ => false
  | _, none => false
  | some _, some oid =>
    match api oid resource action with
    | .ok success => success || false
    | .error _ => false

/-! ## Auth utilities (`src/lib/auth.ts`, second module) -/

/-- The user table as `isAdmin` queries it:
`prisma.user.findUnique({ where: { id } , select: { role, banned } })`,
with `Except.error` for a raising client. -/
def UserStore := String → Except String (Option User)

/-- A deterministic user store over a list of rows. -/
def mkUserStore (users : List User) : UserStore :=
  fun userId => .ok (users.find? (fun u => u.id == userId))

/-- `isAdmin` from auth.ts lines 196–208:
`user?.role === "admin" && !user?.banned`, with the `catch` returning
`false`. -/
def isAdmin (users : UserStore) (userId : String) : Bool :=
  match users userId with
  | .error _ => false
  | .ok none => false
  | .ok (some u) => u.role == some "admin" && !u.banned

/-- `canPerformAction` from auth.ts lines 354–379: the app-level admin
check runs first and short-circuits to `true`; only otherwise is the
better-auth organization permission API consulted, with the `catch`
returning `false`. -/
def canPerformAction (users : UserStore) (api : OrgPermApi)
    (userId organizationId resource action : String) : Bool :=
  if isAdmin users userId then
    true
  else
    match api organizationId resource action with
    | .ok success => success || false
    | .error _ => false

/-- `getOrganizationId` from auth.ts lines 277–294: context value, then
`param("organizationId") || param("orgId")`, then
`query("organizationId") || query("orgId")`, then `orgId || null`. -/
def getOrganizationId (c : ReqCtx) : Option String :=
  match truthy c.ctxOrganizationId with
  | some v => some v
  | none =>
    match truthy (c.param "organizationId") with
    | some v => some v
    | none =>
      match truthy (c.param "orgId") with
      | some v => some v
      | none =>
        match truthy (c.queryParam "organizationId") with
        | some v => some v
        | none => truthy (c.queryParam "orgId")

/-! ## Admin user-management route handlers (`src/api/me.ts`) -/

/-- The response of a user-management route handler: the thrown
`HTTPException` or the success payload. -/
inductive RouteResult where
  | err (e : HTTPError)
  | ok (msg : String)
deriving DecidableEq, Repr

/-- Outcome of a user-management route handler: the HTTP error or the
success message, paired with the user table as the handler leaves it. -/
structure RouteOutcome where
  result : RouteResult
  usersAfter : List User
deriving DecidableEq, Repr

/-- `DELETE /admin/users/:id` from me.ts lines 516–537: the self-deletion
check `currentUser?.id === userId` throws 400 before the `try`;
`prisma.user.delete` throws (→ 500) when no row matches, else removes the
row. -/
def adminDeleteUser (currentUser : Option User) (userId : String)
    (users : List User) : RouteOutcome :=
  if (currentUser.map User.id) == some userId then
    ⟨.err ⟨400, "Cannot delete your own account"⟩, users⟩
  else if users.any (fun u => u.id == userId) then
    ⟨.ok "User deleted successfully", users.filter (fun u => !(u.id == userId))⟩
  else
    ⟨.err ⟨500, "Failed to delete user"⟩, users⟩

/-- Modelled from the spec: the external auth service's admin `banUser`
operation (the better-auth admin plugin, a dependency whose code is not in
this repository).  Per the spec's self-protection invariant — "a principal
cannot delete or ban its own account" — it rejects when the acting
principal is the target; otherwise it marks the target banned. -/
def banUserApi (actingUserId targetUserId : String) (users : List User) :
    Except String (List User) :=
  if actingUserId == targetUserId then
    .error "You cannot ban yourself"
  else
    .ok (users.map (fun u => if u.id == targetUserId then
      { u with banned := true } else u))

/-- `POST /admin/users/:id/ban` from me.ts lines 465–493: no self-ban check
of its own; it delegates to `auth.api.banUser` (the acting principal being
the one resolved from the request's session headers) and its `catch` turns
any thrown error into `HTTPException(500, "Failed to ban user")`. -/
def adminBanUser (currentUser : Option User) (userId : String)
    (users : List User) : RouteOutcome :=
  match currentUser with
  | none => ⟨.err ⟨500, "Failed to ban user"⟩, users⟩
  | some acting =>
    match banUserApi acting.id userId users with
    | .ok users' => ⟨.ok "banned", users'⟩
    | .error _ => ⟨.err ⟨500, "Failed to ban user"⟩, users⟩

/-! ## Reference policy tables of spec §4.1

The spec's fixed tables, transcribed from the spec text as flat lists of
granted (role, resource, action) triples, independently of the source's
`rolePermissions` / `organizationRolePermissions`, so that the two can be
compared. -/

/-- Spec §4.1: the app-level grants, role by role, resource by resource. -/
def specAppGrants : List (String × String × String) :=
  (["create", "read", "update", "delete", "ban", "impersonate"].map (fun a => ("admin", "user", a))) ++
  (["create", "read", "update", "delete", "manage"].map (fun a => ("admin", "project", a))) ++
  (["read", "manage"].map (fun a => ("admin", "admin", a))) ++
  (["create", "read", "update", "delete", "manage", "invite"].map (fun a => ("admin", "organization", a))) ++
  (["create", "read", "update", "delete", "manage"].map (fun a => ("admin", "team", a))) ++
  (["create", "read", "update", "delete", "cancel"].map (fun a => ("admin", "invitation", a))) ++
  (["create", "read", "update", "delete"].map (fun a => ("admin", "member", a))) ++
  (["create", "read", "update"].map (fun a => ("user", "project", a))) ++
  (["read"].map (fun a => ("user", "organization", a))) ++
  (["read"].map (fun a => ("user", "team", a))) ++
  (["read"].map (fun a => ("user", "invitation", a))) ++
  (["read"].map (fun a => ("user", "member", a)))

/-- Spec §4.1: the organization-level grants, role by role, resource by resource. -/
def specOrgGrants : List (String × String × String) :=
  (["create", "read", "update", "delete", "manage"].map (fun a => ("owner", "project", a))) ++
  (["read", "update", "manage", "invite"].map (fun a => ("owner", "organization", a))) ++
  (["create", "read", "update", "delete", "manage"].map (fun a => ("owner", "team", a))) ++
  (["create", "read", "update", "delete", "cancel"].map (fun a => ("owner", "invitation", a))) ++
  (["create", "read", "update", "delete"].map (fun a => ("owner", "member", a))) ++
  (["read"].map (fun a => ("owner", "user", a))) ++
  (["create", "read", "update", "delete"].map (fun a => ("admin", "project", a))) ++
  (["read", "update", "invite"].map (fun a => ("admin", "organization", a))) ++
  (["create", "read", "update", "delete"].map (fun a => ("admin", "team", a))) ++
  (["create", "read", "update", "delete", "cancel"].map (fun a => ("admin", "invitation", a))) ++
  (["create", "read", "update", "delete"].map (fun a => ("admin", "member", a))) ++
  (["read"].map (fun a => ("admin", "user", a))) ++
  (["create", "read", "update"].map (fun a => ("member", "project", a))) ++
  (["read"].map (fun a => ("member", "organization", a))) ++
  (["read"].map (fun a => ("member", "team", a))) ++
  (["read"].map (fun a => ("member", "invitation", a))) ++
  (["read"].map (fun a => ("member", "member", a))) ++
  (["read"].map (fun a => ("member", "user", a)))

/-- Helper for C2: the `admin` row of `hasPermission` grants exactly the spec's triples. -/
theorem hasPermission_admin_iff (res act : String) :
    hasPermission .admin res act = true ↔ ("admin", res, act) ∈ specAppGrants := by
  unfold hasPermission hasPermissionIn rolePermissions AppRole.key
  by_cases h1 : res = "user"
  · subst h1; simp [specAppGrants, objGet]
  by_cases h2 : res = "project"
  · subst h2; simp [specAppGrants, objGet, h1]
  by_cases h3 : res = "admin"
  · subst h3; simp [specAppGrants, objGet, h1, h2]
  by_cases h4 : res = "organization"
  · subst h4; simp [specAppGrants, objGet, h1, h2, h3]
  by_cases h5 : res = "team"
  · subst h5; simp [specAppGrants, objGet, h1, h2, h3, h4]
  by_cases h6 : res = "invitation"
  · subst h6; simp [specAppGrants, objGet, h1, h2, h3, h4, h5]
  by_cases h7 : res = "member"
  · subst h7; simp [specAppGrants, objGet, h1, h2, h3, h4, h5, h6]
  · simp [specAppGrants, objGet, h1, h2, h3, h4, h5, h6, h7]

/-- Helper for C2: the `user` row of `hasPermission` grants exactly the spec's triples. -/
theorem hasPermission_user_iff (res act : String) :
    hasPermission .user res act = true ↔ ("user", res, act) ∈ specAppGrants := by
  unfold hasPermission hasPermissionIn rolePermissions AppRole.key
  by_cases h1 : res = "project"
  · subst h1; simp [specAppGrants, objGet]
  by_cases h2 : res = "organization"
  · subst h2; simp [specAppGrants, objGet, h1]
  by_cases h3 : res = "team"
  · subst h3; simp [specAppGrants, objGet, h1, h2]
  by_cases h4 : res = "invitation"
  · subst h4; simp [specAppGrants, objGet, h1, h2, h3]
  by_cases h5 : res = "member"
  · subst h5; simp [specAppGrants, objGet, h1, h2, h3, h4]
  · simp [specAppGrants, objGet, h1, h2, h3, h4, h5]

/-- Helper for C2: the `owner` row of `hasOrganizationPermission` grants exactly the spec's triples. -/
theorem hasOrganizationPermission_owner_iff (res act : String) :
    hasOrganizationPermission .owner res act = true ↔ ("owner", res, act) ∈ specOrgGrants := by
  unfold hasOrganizationPermission hasPermissionIn organizationRolePermissions OrgRole.key
  by_cases h1 : res = "project"
  · subst h1; simp [specOrgGrants, objGet]
  by_cases h2 : res = "organization"
  · subst h2; simp [specOrgGrants, objGet, h1]
  by_cases h3 : res = "team"
  · subst h3; simp [specOrgGrants, objGet, h1, h2]
  by_cases h4 : res = "invitation"
  · subst h4; simp [specOrgGrants, objGet, h1, h2, h3]
  by_cases h5 : res = "member"
  · subst h5; simp [specOrgGrants, objGet, h1, h2, h3, h4]
  by_cases h6 : res = "user"
  · subst h6; simp [specOrgGrants, objGet, h1, h2, h3, h4, h5]
  · simp [specOrgGrants, objGet, h1, h2, h3, h4, h5, h6]

/-- Helper for C2: the `admin` row of `hasOrganizationPermission` grants exactly the spec's triples. -/
theorem hasOrganizationPermission_admin_iff (res act : String) :
    hasOrganizationPermission .admin res act = true ↔ ("admin", res, act) ∈ specOrgGrants := by
  unfold hasOrganizationPermission hasPermissionIn organizationRolePermissions OrgRole.key
  by_cases h1 : res = "project"
  · subst h1; simp [specOrgGrants, objGet]
  by_cases h2 : res = "organization"
  · subst h2; simp [specOrgGrants, objGet, h1]
  by_cases h3 : res = "team"
  · subst h3; simp [specOrgGrants, objGet, h1, h2]
  by_cases h4 : res = "invitation"
  · subst h4; simp [specOrgGrants, objGet, h1, h2, h3]
  by_cases h5 : res = "member"
  · subst h5; simp [specOrgGrants, objGet, h1, h2, h3, h4]
  by_cases h6 : res = "user"
  · subst h6; simp [specOrgGrants, objGet, h1, h2, h3, h4, h5]
  · simp [specOrgGrants, objGet, h1, h2, h3, h4, h5, h6]

/-- Helper for C2: the `member` row of `hasOrganizationPermission` grants exactly the spec's triples. -/
theorem hasOrganizationPermission_member_iff (res act : String) :
    hasOrganizationPermission .member res act = true ↔ ("member", res, act) ∈ specOrgGrants := by
  unfold hasOrganizationPermission hasPermissionIn organizationRolePermissions OrgRole.key
  by_cases h1 : res = "project"
  · subst h1; simp [specOrgGrants, objGet]
  by_cases h2 : res = "organization"
  · subst h2; simp [specOrgGrants, objGet, h1]
  by_cases h3 : res = "team"
  · subst h3; simp [specOrgGrants, objGet, h1, h2]
  by_cases h4 : res = "invitation"
  · subst h4; simp [specOrgGrants, objGet, h1, h2, h3]
  by_cases h5 : res = "member"
  · subst h5; simp [specOrgGrants, objGet, h1, h2, h3, h4]
  by_cases h6 : res = "user"
  · subst h6; simp [specOrgGrants, objGet, h1, h2, h3, h4, h5]
  · simp [specOrgGrants, objGet, h1, h2, h3, h4, h5, h6]

/-! ## Sample request states used by the concrete theorems -/

/-- An unbanned system admin with id `u1`. -/
def adminUser : User := ⟨"u1", some "admin", false⟩

/-- An ordinary app-level user with id `u1`. -/
def plainUser : User := ⟨"u1", some "user", false⟩

/-- A request by `adminUser` carrying the organization id `o1` as the
route parameter, nothing cached. -/
def adminReq : ReqCtx :=
  ⟨some adminUser, some ⟨"s1"⟩, none, none, [("organizationId", "o1")], []⟩

/-- A request by `plainUser` with the organization id `o1` already cached. -/
def plainReq : ReqCtx :=
  ⟨some plainUser, some ⟨"s1"⟩, some "o1", none, [], []⟩

/-- A request by `plainUser` carrying the organization id `o1` only as a
query parameter. -/
def queryOnlyReq : ReqCtx :=
  ⟨some plainUser, some ⟨"s1"⟩, none, none, [], [("organizationId", "o1")]⟩

/-- The request context a guard leaves behind. -/
def afterCtx : GuardResult → ReqCtx
  | .reject _ a => a
  | .proceed a => a

/-! ## Claims -/

/-- **C1** (counterexample): an unbanned system admin (`role = "admin"`)
requesting `team.create` on organization `o1`, with the Membership Store
holding zero rows, is **rejected** by `requireOrganizationPermission`
(403 "Organization permission denied"), not allowed: the guard performs no
admin bypass. -/
theorem C1_counterexample :
    requireOrganizationPermission "team" "create" (mkStore []) adminReq
      = .reject ⟨403, "Organization permission denied"⟩ adminReq := by
  rfl

/-- **C1** (amended): the admin bypass — system-admin-and-not-banned is
granted before any organization permission lookup — is implemented only in
the helper `canPerformAction`, whose `isAdmin` check short-circuits to
`true` for every organization, resource and action and for arbitrary
behaviour of the organization-permission collaborator (even one that always
raises); `requireOrganizationPermission` itself has no bypass and rejects a
system admin who has no membership row. -/
theorem C1_admin_bypass_only_in_canPerformAction :
    (∀ (api : OrgPermApi) (others : List User) (uid oid res act : String),
      canPerformAction
        (mkUserStore ({ id := uid, role := some "admin", banned := false } :: others))
        api uid oid res act = true) ∧
    (∀ (res act uid : String) (s : Option Session) (cr : Option String)
       (q : List (String × String)),
      requireOrganizationPermission res act (mkStore [])
        ⟨some ⟨uid, some "admin", false⟩, s, some "o1", cr, [], q⟩
      = .reject ⟨403, "Organization permission denied"⟩
        ⟨some ⟨uid, some "admin", false⟩, s, some "o1", cr, [], q⟩) := by
  constructor
  · intro api others uid oid res act
    simp [canPerformAction, isAdmin, mkUserStore, List.find?]
  · intro res act uid s cr q
    rfl

/-- **C2**: `hasPermission` and `hasOrganizationPermission` coincide with
the reference policy tables of spec §4.1: over the whole role spaces and
for all (resource, action) strings the functions return `true` exactly on
the spec's enumerated grants and `false` (not an error) everywhere else;
in particular a `member` cannot `organization.update` and an org `admin`
can. -/
theorem C2_policy_tables_match_spec :
    (∀ (role : AppRole) (resource action : String),
      hasPermission role resource action = true ↔
        (role.key, resource, action) ∈ specAppGrants) ∧
    (∀ (role : OrgRole) (resource action : String),
      hasOrganizationPermission role resource action = true ↔
        (role.key, resource, action) ∈ specOrgGrants) ∧
    hasOrganizationPermission .member "organization" "update" = false ∧
    hasOrganizationPermission .admin "organization" "update" = true := by
  refine ⟨?_, ?_, by rfl, by rfl⟩
  · intro role resource action
    cases role
    · exact hasPermission_admin_iff resource action
    · exact hasPermission_user_iff resource action
  · intro role resource action
    cases role
    · exact hasOrganizationPermission_owner_iff resource action
    · exact hasOrganizationPermission_admin_iff resource action
    · exact hasOrganizationPermission_member_iff resource action

/-- **C3** (counterexample): when the Membership Store raises, the guard
does not propagate the error: two different store errors ("store down",
"timeout") both surface as the same fixed
`HTTPException(403, "Organization access denied")` — the error is
converted, not passed through. -/
theorem C3_counterexample :
    requireOrganizationMember (failingStore "store down") plainReq
      = .reject ⟨403, "Organization access denied"⟩ plainReq ∧
    requireOrganizationMember (failingStore "timeout") plainReq
      = .reject ⟨403, "Organization access denied"⟩ plainReq := by
  exact ⟨rfl, rfl⟩

/-- **C3** (amended): each guard in the primary path wraps its evaluation
in a catch-all that converts anything thrown — a Membership Store error of
any message, or an unexpected evaluation error such as the role-table
`TypeError` — into one fixed guard-specific `HTTPException`:
403 "Organization access denied" (`requireOrganizationMember`),
403 "Organization permission denied" (`requireOrganizationPermission`),
403 "Organization role check failed" (`requireOrganizationRole`), and
500 "Permission check failed" (`requirePermission`). -/
theorem C3_guards_convert_collaborator_errors :
    ∀ (e : String) (c : ReqCtx) (u : User) (res act : String)
      (roles : List String) (s : Session),
      requireOrganizationMember (failingStore e)
          { c with user := some u, ctxOrganizationId := some "o1" }
        = .reject ⟨403, "Organization access denied"⟩
          { c with user := some u, ctxOrganizationId := some "o1" } ∧
      requireOrganizationPermission res act (failingStore e)
          { c with user := some u, ctxOrganizationId := some "o1" }
        = .reject ⟨403, "Organization permission denied"⟩
          { c with user := some u, ctxOrganizationId := some "o1" } ∧
      requireOrganizationRole roles (failingStore e)
          { c with user := some u, ctxOrganizationId := some "o1" }
        = .reject ⟨403, "Organization role check failed"⟩
          { c with user := some u, ctxOrganizationId := some "o1" } ∧
      requirePermission res act
          { c with user := some ⟨"u1", some "superuser", false⟩, session := some s }
        = .reject ⟨500, "Permission check failed"⟩
          { c with user := some ⟨"u1", some "superuser", false⟩, session := some s } := by
  intro e c u res act roles s
  exact ⟨rfl, rfl, rfl, rfl⟩

/-- **C4** (code evaluation at the failing input): for a present principal
with `systemRole = "user"` and a live session, the `user.ban` policy check
is `false`, yet `requirePermission("user","ban")` rejects with
`HTTPException(500, "Permission check failed")` — not 403 Forbidden —
because the 403 the guard throws inside its `try` is swallowed by its own
`catch`.  The 401 half (missing principal) does hold. -/
theorem C4_policy_denial_yields_500 :
    hasPermission .user "user" "ban" = false ∧
    requirePermission "user" "ban" plainReq
      = .reject ⟨500, "Permission check failed"⟩ plainReq ∧
    requirePermission "user" "ban" { plainReq with user := none }
      = .reject ⟨401, "Authentication required"⟩ { plainReq with user := none } := by
  exact ⟨rfl, rfl, rfl⟩

/-- **C5** (counterexample): a request carrying the organization id only as
a query parameter is **rejected** with 400 "Organization ID required" by
`requireOrganizationMember`, even though the principal is a member of that
organization: the guards never consult query parameters. -/
theorem C5_counterexample :
    requireOrganizationMember (mkStore [⟨"o1", "u1", some "member"⟩]) queryOnlyReq
      = .reject ⟨400, "Organization ID required"⟩ queryOnlyReq := by
  rfl

/-- **C5** (amended): the standalone helper `getOrganizationId` does try,
in order, the cached context value, the `organizationId`/`orgId` route
parameters, and the `organizationId`/`orgId` query parameters, first truthy
match winning and `null` when all are absent; but the organization-scoped
guards resolve only from the cached context and the `organizationId` route
parameter, and reject with 400 when both are falsy, even if a query
parameter carries the id. -/
theorem C5_resolution_order :
    (∀ (c : ReqCtx) (v : String),
      truthy c.ctxOrganizationId = some v → getOrganizationId c = some v) ∧
    (∀ (c : ReqCtx) (v : String),
      truthy c.ctxOrganizationId = none →
      truthy (c.param "organizationId") = some v →
      getOrganizationId c = some v) ∧
    (∀ (c : ReqCtx) (v : String),
      truthy c.ctxOrganizationId = none →
      truthy (c.param "organizationId") = none →
      truthy (c.param "orgId") = some v →
      getOrganizationId c = some v) ∧
    (∀ (c : ReqCtx) (v : String),
      truthy c.ctxOrganizationId = none →
      truthy (c.param "organizationId") = none →
      truthy (c.param "orgId") = none →
      truthy (c.queryParam "organizationId") = some v →
      getOrganizationId c = some v) ∧
    (∀ (c : ReqCtx) (v : String),
      truthy c.ctxOrganizationId = none →
      truthy (c.param "organizationId") = none →
      truthy (c.param "orgId") = none →
      truthy (c.queryParam "organizationId") = none →
      truthy (c.queryParam "orgId") = some v →
      getOrganizationId c = some v) ∧
    (∀ c : ReqCtx,
      truthy c.ctxOrganizationId = none →
      truthy (c.param "organizationId") = none →
      truthy (c.param "orgId") = none →
      truthy (c.queryParam "organizationId") = none →
      truthy (c.queryParam "orgId") = none →
      getOrganizationId c = none) ∧
    (∀ (u : User) (s : Option Session) (cr : Option String)
       (q : List (String × String)) (store : MemberStore)
       (res act : String) (roles : List String),
      requireOrganizationMember store ⟨some u, s, none, cr, [], q⟩
        = .reject ⟨400, "Organization ID required"⟩ ⟨some u, s, none, cr, [], q⟩ ∧
      requireOrganizationPermission res act store ⟨some u, s, none, cr, [], q⟩
        = .reject ⟨400, "Organization ID required"⟩ ⟨some u, s, none, cr, [], q⟩ ∧
      requireOrganizationRole roles store ⟨some u, s, none, cr, [], q⟩
        = .reject ⟨400, "Organization ID required"⟩ ⟨some u, s, none, cr, [], q⟩) := by
  refine ⟨?_, ?_, ?_, ?_, ?_, ?_, ?_⟩
  · intro c v h1
    simp [getOrganizationId, h1]
  · intro c v h1 h2
    simp [getOrganizationId, h1, h2]
  · intro c v h1 h2 h3
    simp [getOrganizationId, h1, h2, h3]
  · intro c v h1 h2 h3 h4
    simp [getOrganizationId, h1, h2, h3, h4]
  · intro c v h1 h2 h3 h4 h5
    simp [getOrganizationId, h1, h2, h3, h4, h5]
  · intro c h1 h2 h3 h4 h5
    simp [getOrganizationId, h1, h2, h3, h4, h5]
  · intro u s cr q store res act roles
    exact ⟨rfl, rfl, rfl⟩

/-- Witness for C5: on `queryOnlyReq` (organization id only in the query
string) the helper `getOrganizationId` does resolve `o1`, by the fourth
conjunct of the resolution-order theorem. -/
theorem C5_resolution_order_witness :
    getOrganizationId queryOnlyReq = some "o1" := by
  exact C5_resolution_order.2.2.2.1 queryOnlyReq "o1" rfl rfl rfl rfl

/-- **C6**: a principal can neither delete nor ban its own account through
the admin user-management routes, whatever its system role: the delete
route's own self-check throws 400 before touching the store, and the ban
route's delegate (the external `banUser`, modelled from the spec) refuses
the self-target, surfacing as the route's 500; in both cases the user
table is returned unchanged. -/
theorem C6_self_delete_and_ban_rejected :
    ∀ (u : User) (users : List User),
      adminDeleteUser (some u) u.id users
        = ⟨.err ⟨400, "Cannot delete your own account"⟩, users⟩ ∧
      adminBanUser (some u) u.id users
        = ⟨.err ⟨500, "Failed to ban user"⟩, users⟩ := by
  intro u users
  constructor
  · simp [adminDeleteUser]
  · simp [adminBanUser, banUserApi]

/-- A request by a principal whose `role` attribute is null. -/
def nullRoleReq : ReqCtx :=
  ⟨some ⟨"u1", none, false⟩, some ⟨"s1"⟩, none, none, [], []⟩

/-- **C7**: role spaces are isolated.  `requireRole`'s and
`requirePermission`'s verdicts are functions of the principal (and session)
alone — unchanged under any change to the rest of the request state, and
they take no Membership Store at all, so no organization role can satisfy
them; `requireOrganizationRole`'s verdict is invariant under the
principal's `role`/`banned` attributes (only the membership row matters),
so system-level admin status never satisfies it.  Concretely: a principal
with app role `user` holding org role `admin` in `o1` fails
`requireRole("admin")` and fails `requirePermission("user","ban")`, and a
system admin with no membership row fails `requireOrganizationRole` for
every role list. -/
theorem C7_role_spaces_isolated :
    (∀ (roles : List String) (u : Option User) (c c' : ReqCtx),
      (requireRole roles { c with user := u }).verdict
        = (requireRole roles { c' with user := u }).verdict) ∧
    (∀ (res act : String) (u : Option User) (s : Option Session) (c c' : ReqCtx),
      (requirePermission res act { c with user := u, session := s }).verdict
        = (requirePermission res act { c' with user := u, session := s }).verdict) ∧
    (∀ (roles : List String) (store : MemberStore) (c : ReqCtx) (i : String)
       (r₁ r₂ : Option String) (b₁ b₂ : Bool),
      (requireOrganizationRole roles store { c with user := some ⟨i, r₁, b₁⟩ }).verdict
        = (requireOrganizationRole roles store { c with user := some ⟨i, r₂, b₂⟩ }).verdict) ∧
    (requireOrganizationMember (mkStore [⟨"o1", "u1", some "admin"⟩]) plainReq
      = .proceed { plainReq with ctxOrganizationId := some "o1",
                                 ctxOrganizationRole := some "admin" }) ∧
    ((requireRole ["admin"] plainReq).verdict
      = .error ⟨403, "Required role: admin. Current role: user"⟩) ∧
    ((requirePermission "user" "ban" plainReq).verdict
      = .error ⟨500, "Permission check failed"⟩) ∧
    (∀ roles : List String,
      (requireOrganizationRole roles (mkStore []) adminReq).verdict
        = .error ⟨403, "Organization role check failed"⟩) := by
  refine ⟨?_, ?_, ?_, rfl, rfl, rfl, fun roles => rfl⟩
  · intro roles u c c'
    cases u with
    | none => rfl
    | some x =>
      simp only [requireRole]
      cases h : (!roles.contains (jsOr x.role "user")) <;>
        simp [h, GuardResult.verdict]
  · intro res act u s c c'
    cases u with
    | none => cases s <;> rfl
    | some x =>
      cases s with
      | none => rfl
      | some ss =>
        cases ht : requirePermissionTry res act x.role <;>
          simp [requirePermission, ht, GuardResult.verdict]
  · intro roles store c i r₁ r₂ b₁ b₂
    cases hg : guardOrgId { c with user := some ⟨i, r₁, b₁⟩ } with
    | none =>
      have hg2 : guardOrgId { c with user := some ⟨i, r₂, b₂⟩ } = none := hg
      simp [requireOrganizationRole, hg, hg2, GuardResult.verdict]
    | some oid =>
      have hg2 : guardOrgId { c with user := some ⟨i, r₂, b₂⟩ } = some oid := hg
      cases ht : requireOrganizationRoleTry roles store i oid with
      | ok r => simp [requireOrganizationRole, hg, hg2, ht, GuardResult.verdict]
      | error err => simp [requireOrganizationRole, hg, hg2, ht, GuardResult.verdict]

/-- **C8**: the imperative helpers are total `Bool`-valued functions (the
embedding's type already rules out throwing) and fail closed: `false` when
the principal is missing, `false` when no organization id is resolvable
from argument, cached context, or `organizationId` route parameter
(including the all-empty-strings case), and `false` whenever the
better-auth permission collaborator raises, whatever the rest of the
request looks like. -/
theorem C8_imperative_helpers_fail_closed :
    (∀ (api : PermApi) (c : ReqCtx) (res act : String),
      checkPermission api { c with user := none } res act = false) ∧
    (∀ (e : String) (c : ReqCtx) (res act : String),
      checkPermission (fun _ _ => .error e) c res act = false) ∧
    (∀ (api : OrgPermApi) (c : ReqCtx) (res act : String) (oid : Option String),
      checkOrganizationPermission api { c with user := none } res act oid = false) ∧
    (∀ (api : OrgPermApi) (u : User) (s : Option Session) (cr : Option String)
       (q : List (String × String)) (res act : String),
      checkOrganizationPermission api ⟨some u, s, none, cr, [], q⟩ res act none = false) ∧
    (∀ (api : OrgPermApi) (u : User) (s : Option Session) (cr : Option String)
       (q : List (String × String)) (res act : String),
      checkOrganizationPermission api
        ⟨some u, s, some "", cr, [("organizationId", "")], q⟩ res act (some "") = false) ∧
    (∀ (e : String) (c : ReqCtx) (res act : String) (oid : Option String),
      checkOrganizationPermission (fun _ _ _ => .error e) c res act oid = false) := by
  refine ⟨fun api c res act => rfl, ?_, ?_,
          fun api u s cr q res act => rfl, fun api u s cr q res act => rfl, ?_⟩
  · intro e c res act
    cases hu : c.user <;> simp [checkPermission, hu]
  · intro api c res act oid
    cases ho : checkOrgId { c with user := none } oid <;>
      simp [checkOrganizationPermission, ho]
  · intro e c res act oid
    cases hu : c.user <;> cases ho : checkOrgId c oid <;>
      simp [checkOrganizationPermission, hu, ho]

/-- **C9**: guard rejection is side-effect-free and idempotent.  Each guard
consumes its Membership Store read-only (the embedding's result type
carries no store, mirroring that the source only calls `findUnique`); on
every rejection the context the guard leaves is exactly the context it
received, and re-running the guard on that context reproduces the same
rejection; on success the guard changes nothing outside the fields it is
specified to write (`organizationId` and `organizationRole` for the
member/role guards, `organizationId` alone for the org-permission guard,
nothing for `requirePermission`/`requireRole`). -/
theorem C9_guard_rejection_pure :
    (∀ (store : MemberStore) (c : ReqCtx) (e : HTTPError) (c' : ReqCtx),
      requireOrganizationMember store c = .reject e c' →
        c' = c ∧ requireOrganizationMember store c' = .reject e c') ∧
    (∀ (store : MemberStore) (c c' : ReqCtx),
      requireOrganizationMember store c = .proceed c' →
        c' = { c with ctxOrganizationId := c'.ctxOrganizationId,
                      ctxOrganizationRole := c'.ctxOrganizationRole }) ∧
    (∀ (res act : String) (store : MemberStore) (c : ReqCtx) (e : HTTPError)
       (c' : ReqCtx),
      requireOrganizationPermission res act store c = .reject e c' →
        c' = c ∧ requireOrganizationPermission res act store c' = .reject e c') ∧
    (∀ (res act : String) (store : MemberStore) (c c' : ReqCtx),
      requireOrganizationPermission res act store c = .proceed c' →
        c' = { c with ctxOrganizationId := c'.ctxOrganizationId }) ∧
    (∀ (roles : List String) (store : MemberStore) (c : ReqCtx) (e : HTTPError)
       (c' : ReqCtx),
      requireOrganizationRole roles store c = .reject e c' →
        c' = c ∧ requireOrganizationRole roles store c' = .reject e c') ∧
    (∀ (roles : List String) (store : MemberStore) (c c' : ReqCtx),
      requireOrganizationRole roles store c = .proceed c' →
        c' = { c with ctxOrganizationId := c'.ctxOrganizationId,
                      ctxOrganizationRole := c'.ctxOrganizationRole }) ∧
    (∀ (res act : String) (c : ReqCtx) (e : HTTPError) (c' : ReqCtx),
      requirePermission res act c = .reject e c' →
        c' = c ∧ requirePermission res act c' = .reject e c') ∧
    (∀ (res act : String) (c c' : ReqCtx),
      requirePermission res act c = .proceed c' → c' = c) ∧
    (∀ (roles : List String) (c : ReqCtx) (e : HTTPError) (c' : ReqCtx),
      requireRole roles c = .reject e c' →
        c' = c ∧ requireRole roles c' = .reject e c') ∧
    (∀ (roles : List String) (c c' : ReqCtx),
      requireRole roles c = .proceed c' → c' = c) := by
  refine ⟨?_, ?_, ?_, ?_, ?_, ?_, ?_, ?_, ?_, ?_⟩
  · intro store c e c' h
    unfold requireOrganizationMember at h
    split at h
    · injection h with he hc
      subst he; subst hc
      exact ⟨rfl, by simp_all [requireOrganizationMember]⟩
    · split at h
      · injection h with he hc
        subst he; subst hc
        exact ⟨rfl, by simp_all [requireOrganizationMember]⟩
      · split at h
        · exact absurd h (by simp)
        · injection h with he hc
          subst he; subst hc
          exact ⟨rfl, by simp_all [requireOrganizationMember]⟩
  · intro store c c' h
    unfold requireOrganizationMember at h
    split at h
    · exact absurd h (by simp)
    · split at h
      · exact absurd h (by simp)
      · split at h
        · injection h with hc
          subst hc
          rfl
        · exact absurd h (by simp)
  · intro res act store c e c' h
    unfold requireOrganizationPermission at h
    split at h
    · injection h with he hc
      subst he; subst hc
      exact ⟨rfl, by simp_all [requireOrganizationPermission]⟩
    · split at h
      · injection h with he hc
        subst he; subst hc
        exact ⟨rfl, by simp_all [requireOrganizationPermission]⟩
      · split at h
        · exact absurd h (by simp)
        · injection h with he hc
          subst he; subst hc
          exact ⟨rfl, by simp_all [requireOrganizationPermission]⟩
  · intro res act store c c' h
    unfold requireOrganizationPermission at h
    split at h
    · exact absurd h (by simp)
    · split at h
      · exact absurd h (by simp)
      · split at h
        · injection h with hc
          subst hc
          rfl
        · exact absurd h (by simp)
  · intro roles store c e c' h
    unfold requireOrganizationRole at h
    split at h
    · injection h with he hc
      subst he; subst hc
      exact ⟨rfl, by simp_all [requireOrganizationRole]⟩
    · split at h
      · injection h with he hc
        subst he; subst hc
        exact ⟨rfl, by simp_all [requireOrganizationRole]⟩
      · split at h
        · exact absurd h (by simp)
        · injection h with he hc
          subst he; subst hc
          exact ⟨rfl, by simp_all [requireOrganizationRole]⟩
  · intro roles store c c' h
    unfold requireOrganizationRole at h
    split at h
    · exact absurd h (by simp)
    · split at h
      · exact absurd h (by simp)
      · split at h
        · injection h with hc
          subst hc
          rfl
        · exact absurd h (by simp)
  · intro res act c e c' h
    unfold requirePermission at h
    split at h
    · injection h with he hc
      subst he; subst hc
      exact ⟨rfl, by simp_all [requirePermission]⟩
    · injection h with he hc
      subst he; subst hc
      exact ⟨rfl, by simp_all [requirePermission]⟩
    · split at h
      · exact absurd h (by simp)
      · injection h with he hc
        subst he; subst hc
        exact ⟨rfl, by simp_all [requirePermission]⟩
  · intro res act c c' h
    unfold requirePermission at h
    split at h
    · exact absurd h (by simp)
    · exact absurd h (by simp)
    · split at h
      · injection h with hc
        subst hc
        rfl
      · exact absurd h (by simp)
  · intro roles c e c' h
    unfold requireRole at h
    split at h
    · injection h with he hc
      subst he; subst hc
      exact ⟨rfl, by simp_all [requireRole]⟩
    · dsimp only [] at h
      split at h
      · injection h with he hc
        subst he; subst hc
        exact ⟨rfl, by simp_all [requireRole]⟩
      · exact absurd h (by simp)
  · intro roles c c' h
    unfold requireRole at h
    split at h
    · exact absurd h (by simp)
    · dsimp only [] at h
      split at h
      · exact absurd h (by simp)
      · injection h with hc
        subst hc
        rfl

/-- Witness for C9: on the membershipless request `plainReq` with an empty
store, `requireOrganizationMember` rejects and — by the rejection-purity
theorem — the context it leaves behind is `plainReq` itself, unchanged. -/
theorem C9_guard_rejection_pure_witness :
    afterCtx (requireOrganizationMember (mkStore []) plainReq) = plainReq := by
  have h : requireOrganizationMember (mkStore []) plainReq
      = .reject ⟨403, "Organization access denied"⟩
          (afterCtx (requireOrganizationMember (mkStore []) plainReq)) := rfl
  exact (C9_guard_rejection_pure.1 (mkStore []) plainReq
    ⟨403, "Organization access denied"⟩
    (afterCtx (requireOrganizationMember (mkStore []) plainReq)) h).1

/-- **C10**: missing role values default downward.  A principal whose
`role` is null or the empty string is evaluated by `requirePermission` and
`requireRole` exactly as app role `"user"` (so not rejected for the missing
role, and of course not admin: `requireRole ["user"]` passes and
`requireRole ["admin"]` fails); a membership row whose `role` is null or
empty is evaluated by `requireOrganizationMember` and
`requireOrganizationRole` exactly as org role `"member"`, which is also the
value written to the context on success and named in the role-mismatch
error thrown inside the guard (the guard then surfaces its catch-all). -/
theorem C10_missing_roles_default_down :
    (∀ (res act i : String) (b : Bool) (c : ReqCtx),
      (requirePermission res act { c with user := some ⟨i, none, b⟩ }).verdict
        = (requirePermission res act { c with user := some ⟨i, some "user", b⟩ }).verdict) ∧
    (∀ (res act i : String) (b : Bool) (c : ReqCtx),
      (requirePermission res act { c with user := some ⟨i, some "", b⟩ }).verdict
        = (requirePermission res act { c with user := some ⟨i, some "user", b⟩ }).verdict) ∧
    (∀ (roles : List String) (i : String) (b : Bool) (c : ReqCtx),
      (requireRole roles { c with user := some ⟨i, none, b⟩ }).verdict
        = (requireRole roles { c with user := some ⟨i, some "user", b⟩ }).verdict) ∧
    (∀ (roles : List String) (i : String) (b : Bool) (c : ReqCtx),
      (requireRole roles { c with user := some ⟨i, some "", b⟩ }).verdict
        = (requireRole roles { c with user := some ⟨i, some "user", b⟩ }).verdict) ∧
    (requireRole ["user"] nullRoleReq = .proceed nullRoleReq) ∧
    (requireRole ["admin"] nullRoleReq
      = .reject ⟨403, "Required role: admin. Current role: user"⟩ nullRoleReq) ∧
    (∀ (r : Option String) (b : Bool) (s : Option Session) (cr : Option String)
       (p q : List (String × String)),
      requireOrganizationMember (mkStore [⟨"o1", "u1", none⟩])
          ⟨some ⟨"u1", r, b⟩, s, some "o1", cr, p, q⟩
        = requireOrganizationMember (mkStore [⟨"o1", "u1", some "member"⟩])
          ⟨some ⟨"u1", r, b⟩, s, some "o1", cr, p, q⟩) ∧
    (∀ (r : Option String) (b : Bool) (s : Option Session) (cr : Option String)
       (p q : List (String × String)),
      requireOrganizationMember (mkStore [⟨"o1", "u1", some ""⟩])
          ⟨some ⟨"u1", r, b⟩, s, some "o1", cr, p, q⟩
        = requireOrganizationMember (mkStore [⟨"o1", "u1", some "member"⟩])
          ⟨some ⟨"u1", r, b⟩, s, some "o1", cr, p, q⟩) ∧
    (requireOrganizationMember (mkStore [⟨"o1", "u1", none⟩]) plainReq
      = .proceed { plainReq with ctxOrganizationId := some "o1",
                                 ctxOrganizationRole := some "member" }) ∧
    (requireOrganizationRole ["member"] (mkStore [⟨"o1", "u1", none⟩]) plainReq
      = .proceed { plainReq with ctxOrganizationId := some "o1",
                                 ctxOrganizationRole := some "member" }) ∧
    (requireOrganizationRoleTry ["owner"] (mkStore [⟨"o1", "u1", some ""⟩])
        "u1" "o1"
      = .error (.http ⟨403,
          "Required organization role: owner. Current role: member"⟩)) ∧
    (requireOrganizationRole ["owner"] (mkStore [⟨"o1", "u1", some ""⟩]) plainReq
      = .reject ⟨403, "Organization role check failed"⟩ plainReq) := by
  refine ⟨?_, ?_, ?_, ?_, rfl, rfl, fun r b s cr p q => rfl,
          fun r b s cr p q => rfl, rfl, rfl, rfl, rfl⟩
  · intro res act i b c
    have hq : requirePermissionTry res act (some "user")
        = requirePermissionTry res act none := rfl
    cases hs : c.session with
    | none => simp [requirePermission, hs, GuardResult.verdict]
    | some ss =>
      cases ht : requirePermissionTry res act (none : Option String) with
      | ok r => simp [requirePermission, hs, hq, ht, GuardResult.verdict]
      | error err => simp [requirePermission, hs, hq, ht, GuardResult.verdict]
  · intro res act i b c
    have hq : requirePermissionTry res act (some "user")
        = requirePermissionTry res act (some "") := rfl
    cases hs : c.session with
    | none => simp [requirePermission, hs, GuardResult.verdict]
    | some ss =>
      cases ht : requirePermissionTry res act (some "") with
      | ok r => simp [requirePermission, hs, hq, ht, GuardResult.verdict]
      | error err => simp [requirePermission, hs, hq, ht, GuardResult.verdict]
  · intro roles i b c
    simp only [requireRole]
    simp [jsOr, truthy, GuardResult.verdict]
    by_cases hm : "user" ∈ roles <;> simp [hm, GuardResult.verdict]
  · intro roles i b c
    simp only [requireRole]
    simp [jsOr, truthy, GuardResult.verdict]
    by_cases hm : "user" ∈ roles <;> simp [hm, GuardResult.verdict]
